import Mathlib

/-!
# Verification of the dynamic-cheatsheet service (`src/dc.py`)

Shallow embedding of the session-scoped cheatsheet store and the curation
pipeline of `src/dc.py`:

* the SQLite table `cheatsheets(session_id PRIMARY KEY, content, updated_at)`
  is modelled as a list of `(session_id, content, updated_at)` rows, with
  `CURRENT_TIMESTAMP` passed in explicitly as a `Nat` parameter `now`;
* `_get_cheatsheet` / `_set_cheatsheet` become pure functions on that store,
  returning `Except` where the Python raises `ValueError`;
* Python string operations (`str.strip`, `str.replace`, truthiness `or`) are
  embedded as executable Lean functions on `String` / `List Char`;
* the external curator call `LanguageModel.generate` and the helper
  `extract_cheatsheet` (imported from outside this repository) are opaque
  function parameters of `update_cheatsheet`.
-/

namespace DC

/-- Python string truthiness `a or b`: the empty string is falsy, so the
expression evaluates to `b` exactly when `a` is empty. -/
def pyOr (a b : String) : String := if a = "" then b else a

/-- Strip characters satisfying `p` from both ends of a character list. -/
def dropBoth (p : Char → Bool) (l : List Char) : List Char :=
  ((l.dropWhile p).reverse.dropWhile p).reverse

/-- Embedding of Python `str.strip()` (no arguments): removes leading and
trailing whitespace characters. -/
def pyStrip (s : String) : String := ⟨dropBoth Char.isWhitespace s.data⟩

/-- `DEFAULT_CHEATSHEET = "(empty)"` (dc.py, line 32): the sentinel stored in
place of an empty cheatsheet. -/
def DEFAULT_CHEATSHEET : String := "(empty)"

/-- The normalization `content.strip() or DEFAULT_CHEATSHEET`
(dc.py, line 96). -/
def normalizeContent (content : String) : String :=
  pyOr (pyStrip content) DEFAULT_CHEATSHEET

/-- The exceptions surfaced by the service: `ValueError("session_id 不能为空。")`
for an empty session id, and any failure raised by the external curator call
`LanguageModel.generate`. -/
inductive DCError where
  | invalidSession
  | curationFailed
  deriving DecidableEq

/-- The `cheatsheets` table: rows `(session_id, content, updated_at)`.
SQLite's `CURRENT_TIMESTAMP` is supplied by the caller as `now : Nat`. -/
abbrev Store := List (String × String × Nat)

/-- The `SELECT content FROM cheatsheets WHERE session_id = ?` step of
`_get_cheatsheet` together with the `row is None` check
(dc.py, lines 82-89). -/
def lookupContent (store : Store) (session_id : String) : String :=
  match store.find? (fun r => r.1 == session_id) with
  | none => DEFAULT_CHEATSHEET
  | some r => r.2.1

/-- `_get_cheatsheet` (dc.py, lines 78-89).  The Python body runs a single
`SELECT`, so the embedding takes the store read-only: no record can be
created or modified by a read. -/
def get_cheatsheet (store : Store) (session_id : String) :
    Except DCError String :=
  if session_id = "" then .error .invalidSession
  else .ok (lookupContent store session_id)

/-- `INSERT ... ON CONFLICT(session_id) DO UPDATE` (dc.py, lines 100-109):
overwrite the content and timestamp of an existing row for this key, or
append a fresh row. -/
def upsert (store : Store) (session_id content : String) (now : Nat) : Store :=
  if store.any (fun r => r.1 == session_id) then
    store.map (fun r => if r.1 == session_id then (session_id, content, now) else r)
  else store ++ [(session_id, content, now)]

/-- `_set_cheatsheet` (dc.py, lines 92-110).  `previous_content = some p ∧
normalized = p` is the Python guard `previous_content is not None and
normalized == previous_content`. -/
def set_cheatsheet (store : Store) (session_id content : String)
    (previous_content : Option String) (now : Nat) : Except DCError Store :=
  if session_id = "" then .error .invalidSession
  else if previous_content = some (normalizeContent content) then .ok store
  else .ok (upsert store session_id (normalizeContent content) now)

/-! ## Lemmas about lookup after upsert -/

theorem find?_map_overwrite (store : Store) (session_id content : String)
    (now : Nat) (h : ∃ r ∈ store, r.1 = session_id) :
    (store.map (fun r =>
        if r.1 == session_id then (session_id, content, now) else r)).find?
      (fun r => r.1 == session_id) = some (session_id, content, now) := by
  induction store with
  | nil => simp at h
  | cons a t ih =>
    rw [List.map_cons]
    by_cases ha : a.1 = session_id
    · rw [if_pos (by simpa using ha)]
      simp [List.find?]
    · rw [if_neg (by simpa using ha), List.find?_cons_of_neg _ (by simpa using ha)]
      apply ih
      rcases h with ⟨r, hr, hr1⟩
      rcases List.mem_cons.mp hr with rfl | hrt
      · exact absurd hr1 ha
      · exact ⟨r, hrt, hr1⟩

theorem find?_append_fresh (store : Store) (session_id content : String)
    (now : Nat) (h : ∀ r ∈ store, r.1 ≠ session_id) :
    (store ++ [(session_id, content, now)]).find?
      (fun r => r.1 == session_id) = some (session_id, content, now) := by
  induction store with
  | nil => simp [List.find?]
  | cons a t ih =>
    rw [List.cons_append,
      List.find?_cons_of_neg _ (by simpa using h a (List.mem_cons_self a t))]
    exact ih fun r hr => h r (List.mem_cons_of_mem a hr)

theorem lookupContent_upsert (store : Store) (session_id content : String)
    (now : Nat) :
    lookupContent (upsert store session_id content now) session_id = content := by
  unfold lookupContent upsert
  by_cases h : ∃ r ∈ store, r.1 = session_id
  · rw [if_pos (by simpa [List.any_eq_true] using h),
      find?_map_overwrite store session_id content now h]
  · push_neg at h
    have hany : ¬ (store.any (fun r => r.1 == session_id) = true) := by
      rw [List.any_eq_true]
      rintro ⟨r, hr, hrb⟩
      exact h r hr (by simpa using hrb)
    rw [if_neg hany, find?_append_fresh store session_id content now h]

/-! ## Claims about the artifact store -/

/-- C2: for every non-empty `session_id` and every content string, calling
`_set_cheatsheet session_id content` (no `previous_content`) and then
`_get_cheatsheet session_id` returns the normalized content:
`content.strip()` if that is non-empty, otherwise the sentinel `"(empty)"`. -/
theorem C2_set_then_get_roundtrip (store : Store) (session_id content : String)
    (now : Nat) (h : session_id ≠ "") :
    ∃ store', set_cheatsheet store session_id content none now = .ok store' ∧
      get_cheatsheet store' session_id =
        .ok (if pyStrip content = "" then DEFAULT_CHEATSHEET
             else pyStrip content) := by
  refine ⟨upsert store session_id (normalizeContent content) now, ?_, ?_⟩
  · unfold set_cheatsheet
    rw [if_neg h]
    simp
  · simp only [get_cheatsheet, if_neg h, lookupContent_upsert]
    rfl

/-- Witness for C2 at a concrete input: storing `"  hi  "` under `"s1"` and
reading it back yields the stripped text `"hi"`. -/
theorem C2_witness :
    ∃ store', set_cheatsheet [] "s1" "  hi  " none 7 = .ok store' ∧
      get_cheatsheet store' "s1" =
        .ok (if pyStrip "  hi  " = "" then DEFAULT_CHEATSHEET
             else pyStrip "  hi  ") :=
  C2_set_then_get_roundtrip [] "s1" "  hi  " 7 (by decide)

/-- C4: if `previous_content` is supplied and equals the normalized content,
`_set_cheatsheet` is a no-op: the store (every record's bytes and
`updated_at` timestamp) is returned unchanged. -/
theorem C4_noop_when_previous_matches (store : Store)
    (session_id content : String) (now : Nat) (h : session_id ≠ "") :
    set_cheatsheet store session_id content
      (some (normalizeContent content)) now = .ok store := by
  unfold set_cheatsheet
  rw [if_neg h]
  simp

/-- Witness for C4 at a concrete input: rewriting `"hi"` over a record that
would get a fresh timestamp is skipped entirely. -/
theorem C4_witness :
    set_cheatsheet [("s1", "hi", 3)] "s1" "hi"
      (some (normalizeContent "hi")) 9 = .ok [("s1", "hi", 3)] :=
  C4_noop_when_previous_matches [("s1", "hi", 3)] "s1" "hi" 9 (by decide)

/-- C5: `_get_cheatsheet` raises `InvalidSession` on the empty session id;
for a non-empty session id with no matching row it returns the sentinel
`"(empty)"` (and, the embedding being a pure read, creates no record); for a
session with a row it returns the stored content verbatim. -/
theorem C5_get_cases :
    (∀ store : Store,
      get_cheatsheet store "" = .error DCError.invalidSession) ∧
    (∀ (store : Store) (session_id : String), session_id ≠ "" →
      store.find? (fun r => r.1 == session_id) = none →
      get_cheatsheet store session_id = .ok DEFAULT_CHEATSHEET) ∧
    (∀ (store : Store) (session_id : String) (row : String × String × Nat),
      session_id ≠ "" →
      store.find? (fun r => r.1 == session_id) = some row →
      get_cheatsheet store session_id = .ok row.2.1) := by
  refine ⟨fun _ => rfl, ?_, ?_⟩
  · intro store sid h hf
    simp [get_cheatsheet, if_neg h, lookupContent, hf]
  · intro store sid row h hf
    simp [get_cheatsheet, if_neg h, lookupContent, hf]

/-- Witness for C5 at concrete inputs: empty id errors, an unseen session
yields the sentinel, a stored session yields its content. -/
theorem C5_witness :
    get_cheatsheet [("s1", "X", 0)] "" = .error DCError.invalidSession ∧
    get_cheatsheet [("s1", "X", 0)] "s2" = .ok DEFAULT_CHEATSHEET ∧
    get_cheatsheet [("s1", "X", 0)] "s1" = .ok ("s1", "X", 0).2.1 :=
  ⟨C5_get_cases.1 _,
   C5_get_cases.2.1 _ "s2" (by decide) (by decide),
   C5_get_cases.2.2 _ "s1" ("s1", "X", 0) (by decide) (by decide)⟩

/-- C10: normalization happens before the no-op comparison, so writing blank
(empty or whitespace-only) content with `previous_content = "(empty)"` is a
no-op even though the literal `content` argument differs from `previous`. -/
theorem C10_blank_over_sentinel_noop (store : Store)
    (session_id content : String) (now : Nat)
    (h1 : session_id ≠ "") (h2 : pyStrip content = "") :
    set_cheatsheet store session_id content
      (some DEFAULT_CHEATSHEET) now = .ok store := by
  unfold set_cheatsheet
  rw [if_neg h1]
  simp [normalizeContent, pyOr, h2]

/-- Witness for C10 at a concrete input: writing `"  \t "` over a session
whose previous content is the sentinel changes nothing. -/
theorem C10_witness :
    set_cheatsheet [("s1", "(empty)", 2)] "s1" "  \t "
      (some DEFAULT_CHEATSHEET) 9 = .ok [("s1", "(empty)", 2)] :=
  C10_blank_over_sentinel_noop [("s1", "(empty)", 2)] "s1" "  \t " 9
    (by decide) (by decide)

/-! ## Embedding of Python `str.replace` (dc.py, lines 181-185)

Python's `s.replace(old, new)` scans `s` left to right and substitutes each
non-overlapping occurrence of `old`.  All three call sites in
`update_cheatsheet` use one of the fixed non-empty placeholder markers as
`old`, so the empty-pattern corner of the Python builtin never arises; the
embedding leaves the text unchanged for an empty pattern. -/

/-- Left-to-right scan of `s`, replacing each non-overlapping occurrence of
the non-empty pattern `pat` by `rep`. -/
def pyReplaceAux (pat rep : List Char) : List Char → List Char
  | [] => []
  | c :: rest =>
    if pat.isPrefixOf (c :: rest) && !pat.isEmpty then
      rep ++ pyReplaceAux pat rep (rest.drop (pat.length - 1))
    else
      c :: pyReplaceAux pat rep rest
termination_by l => l.length
decreasing_by
  · simp only [List.length_drop, List.length_cons]
    omega
  · simp only [List.length_cons]
    omega

/-- Embedding of `s.replace(pat, rep)`. -/
def strReplace (s pat rep : String) : String :=
  ⟨pyReplaceAux pat.data rep.data s.data⟩

/-- The placeholder marker `"[[PREVIOUS_CHEATSHEET]]"` (dc.py, line 182). -/
def pMark : String := "[[PREVIOUS_CHEATSHEET]]"

/-- The placeholder marker `"[[QUESTION]]"` (dc.py, line 183). -/
def qMark : String := "[[QUESTION]]"

/-- The placeholder marker `"[[MODEL_ANSWER]]"` (dc.py, line 184). -/
def aMark : String := "[[MODEL_ANSWER]]"

/-- The chained substitution building `curator_prompt`
(dc.py, lines 181-185). -/
def renderCuratorPrompt (curator_template current_cheatsheet question
    model_output : String) : String :=
  strReplace (strReplace (strReplace curator_template
    pMark current_cheatsheet)
    qMark question)
    aMark model_output

/-! ### Scan lemmas for `pyReplaceAux` -/

theorem pyReplaceAux_nil (pat rep : List Char) :
    pyReplaceAux pat rep [] = [] := by
  rw [pyReplaceAux]

theorem isPrefixOf_append_self (l t : List Char) :
    l.isPrefixOf (l ++ t) = true := by
  induction l with
  | nil => simp [List.isPrefixOf]
  | cons a as ih => simp [List.isPrefixOf, ih]

/-- Replacing at a pattern occurrence sitting at the head of the text. -/
theorem pyReplaceAux_head (pat rep t : List Char) (hpat : pat ≠ []) :
    pyReplaceAux pat rep (pat ++ t) = rep ++ pyReplaceAux pat rep t := by
  match pat, hpat with
  | p :: ps, _ =>
    have hpre : (p :: ps).isPrefixOf (p :: (ps ++ t)) = true := by
      have h := isPrefixOf_append_self (p :: ps) t
      rwa [List.cons_append] at h
    rw [List.cons_append, pyReplaceAux, if_pos (by simp [hpre])]
    have hdrop : (ps ++ t).drop ((p :: ps).length - 1) = t := by
      simp
    rw [hdrop]

/-- No occurrence of `pat` begins inside the first `a.length` positions of
`a ++ b`. -/
def CleanThrough (pat a b : List Char) : Prop :=
  ∀ n, n < a.length → pat.isPrefixOf ((a ++ b).drop n) = false

/-- The scan walks through a region in which no occurrence starts. -/
theorem pyReplaceAux_through (pat rep : List Char) :
    ∀ a b : List Char, CleanThrough pat a b →
      pyReplaceAux pat rep (a ++ b) = a ++ pyReplaceAux pat rep b := by
  intro a
  induction a with
  | nil => intro b _; rfl
  | cons c a' ih =>
    intro b hclean
    have h0 : pat.isPrefixOf (c :: (a' ++ b)) = false := by
      simpa using hclean 0 (by simp)
    rw [List.cons_append, pyReplaceAux, if_neg (by simp [h0]), List.cons_append]
    have ha' : pyReplaceAux pat rep (a' ++ b) = a' ++ pyReplaceAux pat rep b :=
      ih b (fun n hn => by
        have := hclean (n + 1) (by simpa using Nat.succ_lt_succ hn)
        simpa using this)
    rw [ha']

/-- Executable check that no occurrence of `pat` starts at any position of
`s`. -/
def noOccurB (pat s : List Char) : Bool :=
  (List.range (s.length + 1)).all (fun n => !pat.isPrefixOf (s.drop n))

/-- Executable version of `CleanThrough`. -/
def cleanThroughB (pat a b : List Char) : Bool :=
  (List.range a.length).all (fun n => !pat.isPrefixOf ((a ++ b).drop n))

theorem cleanThroughB_sound (pat a b : List Char)
    (h : cleanThroughB pat a b = true) : CleanThrough pat a b := by
  intro n hn
  have h' := List.all_eq_true.mp h n (List.mem_range.mpr hn)
  simpa using h'

theorem noOccurB_sound (pat s : List Char) (hpat : pat ≠ [])
    (h : noOccurB pat s = true) :
    ∀ n, pat.isPrefixOf (s.drop n) = false := by
  intro n
  by_cases hn : n ≤ s.length
  · have h' := List.all_eq_true.mp h n (List.mem_range.mpr (Nat.lt_succ_of_le hn))
    simpa using h'
  · rw [List.drop_eq_nil_of_le (by omega)]
    match pat, hpat with
    | p :: ps, _ => simp [List.isPrefixOf]

/-- A text with no occurrence of the pattern is returned unchanged. -/
theorem pyReplaceAux_noOccur (pat rep s : List Char) (_hpat : pat ≠ [])
    (h : ∀ n, pat.isPrefixOf (s.drop n) = false) :
    pyReplaceAux pat rep s = s := by
  induction s with
  | nil => exact pyReplaceAux_nil _ _
  | cons c rest ih =>
    have h0 : pat.isPrefixOf (c :: rest) = false := by simpa using h 0
    rw [pyReplaceAux, if_neg (by simp [h0]),
      ih (fun n => by simpa using h (n + 1))]

/-- Replacing the pattern by itself as a whole text. -/
theorem pyReplaceAux_self (pat rep : List Char) (hpat : pat ≠ []) :
    pyReplaceAux pat rep pat = rep := by
  have h := pyReplaceAux_head pat rep [] hpat
  simpa [pyReplaceAux_nil] using h

/-! ### String-level wrappers -/

theorem data_append (s t : String) : (s ++ t).data = s.data ++ t.data := rfl

theorem strReplace_noOccur (s pat rep : String) (hpat : pat.data ≠ [])
    (h : noOccurB pat.data s.data = true) : strReplace s pat rep = s := by
  show String.mk (pyReplaceAux pat.data rep.data s.data) = s
  rw [pyReplaceAux_noOccur pat.data rep.data s.data hpat
    (noOccurB_sound _ _ hpat h)]

theorem strReplace_self (pat rep : String) (hpat : pat.data ≠ []) :
    strReplace pat pat rep = rep := by
  show String.mk (pyReplaceAux pat.data rep.data pat.data) = rep
  rw [pyReplaceAux_self _ _ hpat]

/-! ## Claims about template rendering

The curator template is text in which the three placeholder markers occur
interleaved with literal fragments (the curation template of this service
carries all three).  A `Seg` list is such a decomposition; mapping `segText`
and joining recovers the template text.  The `goodSegsB` side condition
states that the decomposition is exact for the pattern of one substitution
stage: the flagged segments carry exactly the pattern, and no occurrence of
the pattern starts inside any other segment's text (with respect to the
text that follows it). -/

/-- One segment of the curator template: a literal fragment — which may hold
placeholder markers of no binding, such as `[[OTHER]]` — or one of the three
bound placeholder markers. -/
inductive Seg where
  | lit (l : List Char)
  | prevMark
  | questionMark
  | answerMark

/-- The template text of a segment. -/
def segText : Seg → List Char
  | .lit l => l
  | .prevMark => pMark.data
  | .questionMark => qMark.data
  | .answerMark => aMark.data

/-- A segment's text after the first substitution
(`[[PREVIOUS_CHEATSHEET]]` ↦ `prev`). -/
def segAfterP (prev : String) : Seg → List Char
  | .lit l => l
  | .prevMark => prev.data
  | .questionMark => qMark.data
  | .answerMark => aMark.data

/-- A segment's text after the second substitution
(`[[QUESTION]]` ↦ `question`). -/
def segAfterQ (prev question : String) : Seg → List Char
  | .lit l => l
  | .prevMark => prev.data
  | .questionMark => question.data
  | .answerMark => aMark.data

/-- A segment's fully rendered text: each marker replaced by its binding,
literal fragments verbatim. -/
def segRendered (prev question model_output : String) : Seg → List Char
  | .lit l => l
  | .prevMark => prev.data
  | .questionMark => question.data
  | .answerMark => model_output.data

def isPrevMark : Seg → Bool
  | .prevMark => true
  | _ => false

def isQuestionMark : Seg → Bool
  | .questionMark => true
  | _ => false

def isAnswerMark : Seg → Bool
  | .answerMark => true
  | _ => false

/-- Executable check that, in the text `(segs.map g).flatten`, the occurrences
of `pat` are exactly the segments flagged by `f`: each flagged segment's
text is `pat`, and no occurrence of `pat` starts inside an unflagged
segment's text. -/
def goodSegsB (pat : List Char) (f : Seg → Bool) (g : Seg → List Char) :
    List Seg → Bool
  | [] => true
  | s :: rest =>
    (if f s then g s == pat
     else cleanThroughB pat (g s) ((rest.map g).flatten)) &&
      goodSegsB pat f g rest

/-- One substitution stage over a segment decomposition: every flagged
segment is replaced by `rep` (collected in `g'`), every other segment's text
passes through unchanged. -/
theorem pyReplaceAux_segs (pat rep : List Char) (hpat : pat ≠ [])
    (f : Seg → Bool) (g g' : Seg → List Char)
    (hT : ∀ s, f s = true → g s = pat)
    (hT' : ∀ s, f s = true → g' s = rep)
    (hF : ∀ s, f s = false → g' s = g s) :
    ∀ segs : List Seg, goodSegsB pat f g segs = true →
      pyReplaceAux pat rep ((segs.map g).flatten) = (segs.map g').flatten := by
  intro segs
  induction segs with
  | nil => intro _; exact pyReplaceAux_nil _ _
  | cons s rest ih =>
    intro hgood
    rw [List.map_cons, List.flatten_cons, List.map_cons, List.flatten_cons]
    cases hf : f s with
    | true =>
      simp only [goodSegsB, hf, Bool.and_eq_true] at hgood
      rw [hT s hf, hT' s hf, pyReplaceAux_head pat rep _ hpat, ih hgood.2]
    | false =>
      simp only [goodSegsB, hf, Bool.and_eq_true] at hgood
      rw [hF s hf,
        pyReplaceAux_through pat rep (g s) ((rest.map g).flatten)
          (cleanThroughB_sound _ _ _ (by simpa using hgood.1)),
        ih hgood.2]

/-- C6: in the prompt rendering of `update_cheatsheet`, for each of the
bindings `[[PREVIOUS_CHEATSHEET]]`, `[[QUESTION]]` and `[[MODEL_ANSWER]]`,
every literal occurrence of that placeholder marker in the curator template
is replaced by the corresponding value, and any placeholder marker with no
corresponding binding is left untouched in the output, with no error.  The
template is given as its decomposition into literal fragments and bound
markers — covering templates that hold all three markers at once — and the
rendered output replaces every marker segment by its binding while every
literal fragment, including one holding an unbound marker such as
`[[OTHER]]`, passes through verbatim.  The three `goodSegsB` hypotheses say
the decomposition is exact at each sequential substitution stage: the
occurrences of each marker in the text scanned at its stage are precisely
its marker segments. -/
theorem C6_render_replaces_every_marker (segs : List Seg)
    (prev question model_output : String)
    (h1 : goodSegsB pMark.data isPrevMark segText segs = true)
    (h2 : goodSegsB qMark.data isQuestionMark (segAfterP prev) segs = true)
    (h3 : goodSegsB aMark.data isAnswerMark (segAfterQ prev question) segs
      = true) :
    renderCuratorPrompt ⟨(segs.map segText).flatten⟩ prev question model_output
      = ⟨(segs.map (segRendered prev question model_output)).flatten⟩ := by
  have e1 : strReplace ⟨(segs.map segText).flatten⟩ pMark prev =
      ⟨(segs.map (segAfterP prev)).flatten⟩ :=
    congrArg String.mk (pyReplaceAux_segs pMark.data prev.data (by decide)
      isPrevMark segText (segAfterP prev)
      (fun s hs => by cases s <;> simp_all [isPrevMark, segText])
      (fun s hs => by cases s <;> simp_all [isPrevMark, segAfterP])
      (fun s hs => by cases s <;> simp_all [isPrevMark, segAfterP, segText])
      segs h1)
  have e2 : strReplace ⟨(segs.map (segAfterP prev)).flatten⟩ qMark question =
      ⟨(segs.map (segAfterQ prev question)).flatten⟩ :=
    congrArg String.mk (pyReplaceAux_segs qMark.data question.data
      (by decide) isQuestionMark (segAfterP prev) (segAfterQ prev question)
      (fun s hs => by cases s <;> simp_all [isQuestionMark, segAfterP])
      (fun s hs => by cases s <;> simp_all [isQuestionMark, segAfterQ])
      (fun s hs => by
        cases s <;> simp_all [isQuestionMark, segAfterQ, segAfterP])
      segs h2)
  have e3 : strReplace ⟨(segs.map (segAfterQ prev question)).flatten⟩ aMark
      model_output =
      ⟨(segs.map (segRendered prev question model_output)).flatten⟩ :=
    congrArg String.mk (pyReplaceAux_segs aMark.data model_output.data
      (by decide) isAnswerMark (segAfterQ prev question)
      (segRendered prev question model_output)
      (fun s hs => by cases s <;> simp_all [isAnswerMark, segAfterQ])
      (fun s hs => by cases s <;> simp_all [isAnswerMark, segRendered])
      (fun s hs => by
        cases s <;> simp_all [isAnswerMark, segRendered, segAfterQ])
      segs h3)
  unfold renderCuratorPrompt
  rw [e1, e2, e3]

/-- Witness for C6 at a concrete input: the template
`"A [[PREVIOUS_CHEATSHEET]] B [[QUESTION]] C [[MODEL_ANSWER]] D [[OTHER]]"`
holding all three bound markers plus the unbound `[[OTHER]]` renders with
each bound marker replaced and the unbound one kept verbatim. -/
theorem C6_witness :
    renderCuratorPrompt
      ⟨([Seg.lit "A ".data, Seg.prevMark, Seg.lit " B ".data,
         Seg.questionMark, Seg.lit " C ".data, Seg.answerMark,
         Seg.lit " D [[OTHER]]".data].map segText).flatten⟩
      "P" "Q" "M" =
    ⟨([Seg.lit "A ".data, Seg.prevMark, Seg.lit " B ".data,
       Seg.questionMark, Seg.lit " C ".data, Seg.answerMark,
       Seg.lit " D [[OTHER]]".data].map
        (segRendered "P" "Q" "M")).flatten⟩ :=
  C6_render_replaces_every_marker
    [Seg.lit "A ".data, Seg.prevMark, Seg.lit " B ".data,
     Seg.questionMark, Seg.lit " C ".data, Seg.answerMark,
     Seg.lit " D [[OTHER]]".data]
    "P" "Q" "M" (by decide) (by decide) (by decide)

/-- C9: substitution is sequential, `[[PREVIOUS_CHEATSHEET]]` then
`[[QUESTION]]` then `[[MODEL_ANSWER]]`: an `[[MODEL_ANSWER]]` marker sitting
inside the question value is replaced by `model_output` in the rendered
prompt, while a `[[QUESTION]]` marker sitting inside the model output value
survives verbatim. -/
theorem C9_sequential_substitution
    (prev question model_output q1 q2 m1 m2 : String) :
    (cleanThroughB aMark.data q1.data (aMark.data ++ q2.data) = true →
     noOccurB aMark.data q2.data = true →
     renderCuratorPrompt qMark prev (q1 ++ aMark ++ q2) model_output =
       q1 ++ model_output ++ q2) ∧
    renderCuratorPrompt aMark prev question (m1 ++ qMark ++ m2) =
      m1 ++ qMark ++ m2 := by
  constructor
  · intro h1 h2
    unfold renderCuratorPrompt
    rw [strReplace_noOccur qMark pMark prev (by decide) (by decide),
      strReplace_self qMark (q1 ++ aMark ++ q2) (by decide)]
    show String.mk (pyReplaceAux aMark.data model_output.data
      (q1 ++ aMark ++ q2).data) = q1 ++ model_output ++ q2
    have hdata : (q1 ++ aMark ++ q2).data =
        q1.data ++ (aMark.data ++ q2.data) := by
      rw [data_append, data_append, List.append_assoc]
    rw [hdata,
      pyReplaceAux_through aMark.data model_output.data q1.data _
        (cleanThroughB_sound _ _ _ h1),
      pyReplaceAux_head _ _ _ (by decide),
      pyReplaceAux_noOccur _ _ q2.data (by decide)
        (noOccurB_sound _ _ (by decide) h2)]
    have hout : (q1 ++ model_output ++ q2).data =
        q1.data ++ (model_output.data ++ q2.data) := by
      rw [data_append, data_append, List.append_assoc]
    rw [← hout]
  · unfold renderCuratorPrompt
    rw [strReplace_noOccur aMark pMark prev (by decide) (by decide),
      strReplace_noOccur aMark qMark question (by decide) (by decide),
      strReplace_self aMark (m1 ++ qMark ++ m2) (by decide)]

/-- Witness for C9 at concrete inputs. -/
theorem C9_witness :
    renderCuratorPrompt qMark "P" ("x" ++ aMark ++ "y") "M" =
      "x" ++ "M" ++ "y" ∧
    renderCuratorPrompt aMark "P" "Q" ("u" ++ qMark ++ "v") =
      "u" ++ qMark ++ "v" :=
  ⟨(C9_sequential_substitution "P" "Q" "M" "x" "y" "u" "v").1
      (by decide) (by decide),
   (C9_sequential_substitution "P" "Q" "M" "x" "y" "u" "v").2⟩

/-! ## The orchestrator `update_cheatsheet` (dc.py, lines 171-217)

The external collaborators are opaque function parameters:
`generate` stands for `LanguageModel.generate` on the single-message history
built from the rendered prompt (it may fail), and `extract_cheatsheet` for
`dynamic_cheatsheet.utils.extractor.extract_cheatsheet`, which is imported
from outside this repository.  The loaded curator template is likewise a
parameter (`_read_prompt` reads a static file).  Python exceptions leave the
database untouched, so the embedding returns the store alongside the
`Except` outcome: on every error path the input store is returned as is. -/

/-- The candidate computation of `update_cheatsheet` (dc.py, lines 198-202):
`extract_cheatsheet(curator_output, current) or current`, then the sentinel
if the result is blank. -/
def curateCandidate (extract_cheatsheet : String → String → String)
    (curator_output current_cheatsheet : String) : String :=
  let c := pyOr (extract_cheatsheet curator_output current_cheatsheet)
    current_cheatsheet
  if pyStrip c = "" then DEFAULT_CHEATSHEET else c

/-- `update_cheatsheet` (dc.py, lines 171-217). -/
def update_cheatsheet (generate : String → Except DCError String)
    (extract_cheatsheet : String → String → String)
    (curator_template : String) (now : Nat) (store : Store)
    (session_id question model_output : String) :
    Store × Except DCError String :=
  match get_cheatsheet store session_id with
  | .error e => (store, .error e)
  | .ok current_cheatsheet =>
    let curator_prompt := renderCuratorPrompt curator_template
      current_cheatsheet question model_output
    match generate curator_prompt with
    | .error e => (store, .error e)
    | .ok curator_output =>
      let new_cheatsheet := curateCandidate extract_cheatsheet
        curator_output current_cheatsheet
      match set_cheatsheet store session_id new_cheatsheet
          (some current_cheatsheet) now with
      | .error e => (store, .error e)
      | .ok store' => (store', .ok "ok")

/-- C1: if the curator call fails on the rendered prompt,
`update_cheatsheet` propagates that failure to the caller and the store is
returned exactly as it was: no row inserted or updated, no timestamp
changed. -/
theorem C1_curator_failure_leaves_store (generate : String → Except DCError String)
    (extract_cheatsheet : String → String → String)
    (curator_template : String) (now : Nat) (store : Store)
    (session_id question model_output : String) (e : DCError)
    (hsid : session_id ≠ "")
    (hgen : generate (renderCuratorPrompt curator_template
      (lookupContent store session_id) question model_output) = .error e) :
    update_cheatsheet generate extract_cheatsheet curator_template now store
      session_id question model_output = (store, .error e) := by
  unfold update_cheatsheet get_cheatsheet
  rw [if_neg hsid]
  simp only [hgen]

/-- Witness for C1 at a concrete input: a curator that always fails leaves a
populated store untouched and surfaces the failure. -/
theorem C1_witness :
    update_cheatsheet (fun _ => .error DCError.curationFailed)
      (fun raw _ => raw) "tpl" 5 [("s1", "old", 1)] "s1" "Q" "A" =
      ([("s1", "old", 1)], .error DCError.curationFailed) :=
  C1_curator_failure_leaves_store (fun _ => .error DCError.curationFailed)
    (fun raw _ => raw) "tpl" 5 [("s1", "old", 1)] "s1" "Q" "A"
    DCError.curationFailed (by decide) rfl

/-- C7: when the extractor misses and returns its fallback unchanged, the
candidate is the previous cheatsheet; a blank candidate is replaced by the
sentinel `"(empty)"`; hence a full `update_cheatsheet` round on a normalized
previous cheatsheet whose extraction misses leaves the store exactly as it
was — an unparseable curator response never erases accumulated content. -/
theorem C7_extraction_miss_preserves
    (extract_cheatsheet : String → String → String)
    (generate : String → Except DCError String)
    (curator_template : String) (now : Nat) (store : Store)
    (session_id question model_output raw : String) :
    (∀ current, extract_cheatsheet raw current = current →
      curateCandidate extract_cheatsheet raw current =
        if pyStrip current = "" then DEFAULT_CHEATSHEET else current) ∧
    (∀ output current,
      pyStrip (pyOr (extract_cheatsheet output current) current) = "" →
      curateCandidate extract_cheatsheet output current =
        DEFAULT_CHEATSHEET) ∧
    (session_id ≠ "" →
     normalizeContent (lookupContent store session_id) =
       lookupContent store session_id →
     generate (renderCuratorPrompt curator_template
       (lookupContent store session_id) question model_output) = .ok raw →
     extract_cheatsheet raw (lookupContent store session_id) =
       lookupContent store session_id →
     update_cheatsheet generate extract_cheatsheet curator_template now
       store session_id question model_output = (store, .ok "ok")) := by
  refine ⟨?_, ?_, ?_⟩
  · intro current hmiss
    unfold curateCandidate
    rw [hmiss]
    by_cases hc : current = ""
    · subst hc; simp [pyOr, pyStrip, dropBoth]
    · rw [show pyOr current current = current from if_neg hc]
  · intro output current hblank
    unfold curateCandidate
    rw [if_pos hblank]
  · intro hsid hnorm hgen hmiss
    have hcur : pyStrip (lookupContent store session_id) ≠ "" := by
      intro hblank
      rw [normalizeContent, pyOr, if_pos hblank] at hnorm
      rw [← hnorm] at hblank
      simp [DEFAULT_CHEATSHEET, pyStrip, dropBoth] at hblank
    have hcand : curateCandidate extract_cheatsheet raw
        (lookupContent store session_id) = lookupContent store session_id := by
      unfold curateCandidate
      rw [hmiss]
      by_cases hc : lookupContent store session_id = ""
      · exact absurd (by rw [hc]; rfl) hcur
      · rw [show pyOr (lookupContent store session_id)
            (lookupContent store session_id) =
            lookupContent store session_id from if_neg hc, if_neg hcur]
    unfold update_cheatsheet get_cheatsheet
    rw [if_neg hsid]
    simp only [hgen, hcand]
    unfold set_cheatsheet
    rw [if_neg hsid]
    simp [hnorm]

/-- Witness for C7 at concrete inputs: an extractor returning its fallback
leaves the candidate equal to the previous content, a blank extraction gives
the sentinel, and a full update round on store `[("s1", "K", 1)]` with an
extraction miss returns the store unchanged. -/
theorem C7_witness :
    (curateCandidate (fun _ cur => cur) "raw" "K" =
      if pyStrip "K" = "" then DEFAULT_CHEATSHEET else "K") ∧
    (curateCandidate (fun _ _ => " ") "raw" " " = DEFAULT_CHEATSHEET) ∧
    (update_cheatsheet (fun _ => .ok "raw") (fun _ cur => cur) "tpl" 5
      [("s1", "K", 1)] "s1" "Q" "A" = ([("s1", "K", 1)], .ok "ok")) := by
  have h := C7_extraction_miss_preserves (fun _ cur => cur)
    (fun _ => .ok "raw") "tpl" 5 [("s1", "K", 1)] "s1" "Q" "A" "raw"
  refine ⟨h.1 "K" rfl, ?_, h.2.2 (by decide) (by decide) rfl rfl⟩
  have h2 := C7_extraction_miss_preserves (fun _ _ => " ")
    (fun _ => .ok "raw") "tpl" 5 [("s1", "K", 1)] "s1" "Q" "A" "raw"
  exact h2.2.1 "raw" " " (by decide)

/-! ## Claim C3: the storage invariant -/

/-- A content value that is neither empty nor whitespace-only: it contains a
non-whitespace character. -/
def ContentOk (s : String) : Prop := ∃ c ∈ s.data, c.isWhitespace = false

/-- Every row's stored content is acceptable. -/
def StoreOk (store : Store) : Prop := ∀ r ∈ store, ContentOk r.2.1

theorem exists_not_of_dropWhile_ne_nil (p : Char → Bool) (l : List Char)
    (h : l.dropWhile p ≠ []) : ∃ c ∈ l.dropWhile p, p c = false := by
  induction l with
  | nil => exact absurd rfl h
  | cons a t ih =>
    rw [List.dropWhile_cons] at h ⊢
    by_cases ha : p a
    · rw [if_pos ha] at h ⊢
      exact ih h
    · rw [if_neg ha] at h ⊢
      exact ⟨a, List.mem_cons_self a t, by simpa using ha⟩

theorem contentOk_of_pyStrip_ne (s : String) (h : pyStrip s ≠ "") :
    ContentOk (pyStrip s) := by
  have hd : dropBoth Char.isWhitespace s.data ≠ [] := by
    intro hnil
    apply h
    show String.mk (dropBoth Char.isWhitespace s.data) = ""
    rw [hnil]
  have hinner :
      ((s.data.dropWhile Char.isWhitespace).reverse.dropWhile
        Char.isWhitespace) ≠ [] := by
    intro hnil
    exact hd (by rw [dropBoth, hnil, List.reverse_nil])
  obtain ⟨c, hc, hcp⟩ :=
    exists_not_of_dropWhile_ne_nil Char.isWhitespace
      (s.data.dropWhile Char.isWhitespace).reverse hinner
  exact ⟨c, List.mem_reverse.mpr hc, hcp⟩

theorem contentOk_normalize (content : String) :
    ContentOk (normalizeContent content) := by
  unfold normalizeContent pyOr
  by_cases h : pyStrip content = ""
  · rw [if_pos h]
    show ∃ c ∈ DEFAULT_CHEATSHEET.data, c.isWhitespace = false
    decide
  · rw [if_neg h]
    exact contentOk_of_pyStrip_ne content h

theorem mem_upsert (store : Store) (session_id content : String) (now : Nat)
    (r : String × String × Nat) (h : r ∈ upsert store session_id content now) :
    r ∈ store ∨ r = (session_id, content, now) := by
  unfold upsert at h
  by_cases hany : store.any (fun x => x.1 == session_id)
  · rw [if_pos hany] at h
    obtain ⟨a, ha, hfa⟩ := List.mem_map.mp h
    by_cases h1 : (a.1 == session_id) = true
    · right
      rw [← hfa, if_pos h1]
    · left
      rw [← hfa, if_neg h1]
      exact ha
  · rw [if_neg hany] at h
    rcases List.mem_append.mp h with h | h
    · exact Or.inl h
    · exact Or.inr (by simpa using h)

theorem storeOk_set (store : Store) (session_id content : String)
    (previous_content : Option String) (now : Nat) (store' : Store)
    (hok : StoreOk store)
    (h : set_cheatsheet store session_id content previous_content now =
      .ok store') : StoreOk store' := by
  unfold set_cheatsheet at h
  by_cases hsid : session_id = ""
  · rw [if_pos hsid] at h
    exact Except.noConfusion h
  · rw [if_neg hsid] at h
    by_cases hprev : previous_content = some (normalizeContent content)
    · rw [if_pos hprev] at h
      cases h
      exact hok
    · rw [if_neg hprev] at h
      cases h
      intro r hr
      rcases mem_upsert store session_id (normalizeContent content) now r hr
        with hmem | rfl
      · exact hok r hmem
      · exact contentOk_normalize content

theorem storeOk_update (generate : String → Except DCError String)
    (extract_cheatsheet : String → String → String)
    (curator_template : String) (now : Nat) (store : Store)
    (session_id question model_output : String) (hok : StoreOk store) :
    StoreOk (update_cheatsheet generate extract_cheatsheet curator_template
      now store session_id question model_output).1 := by
  cases hget : get_cheatsheet store session_id with
  | error e => simp only [update_cheatsheet, hget]; exact hok
  | ok current =>
    cases hgen : generate (renderCuratorPrompt curator_template current
        question model_output) with
    | error e => simp only [update_cheatsheet, hget, hgen]; exact hok
    | ok raw =>
      cases hset : set_cheatsheet store session_id
          (curateCandidate extract_cheatsheet raw current)
          (some current) now with
      | error e => simp only [update_cheatsheet, hget, hgen, hset]; exact hok
      | ok store' =>
        simp only [update_cheatsheet, hget, hgen, hset]
        exact storeOk_set store session_id _ (some current) now store' hok hset

/-- A state-mutating operation on the store: one `_set_cheatsheet` call or
one full `update_cheatsheet` call (with its external collaborators and
timestamp packaged in). -/
inductive Op where
  | setOp (session_id content : String) (previous_content : Option String)
      (now : Nat)
  | updateOp (generate : String → Except DCError String)
      (extract_cheatsheet : String → String → String)
      (curator_template : String) (now : Nat)
      (session_id question model_output : String)

/-- Run one operation; a raised exception leaves the store as it was. -/
def applyOp (store : Store) : Op → Store
  | .setOp session_id content previous_content now =>
    match set_cheatsheet store session_id content previous_content now with
    | .ok store' => store'
    | .error _ => store
  | .updateOp generate extract_cheatsheet curator_template now session_id
      question model_output =>
    (update_cheatsheet generate extract_cheatsheet curator_template now store
      session_id question model_output).1

theorem storeOk_applyOp (store : Store) (op : Op) (hok : StoreOk store) :
    StoreOk (applyOp store op) := by
  cases op with
  | setOp session_id content previous_content now =>
    simp only [applyOp]
    cases hset : set_cheatsheet store session_id content previous_content
        now with
    | error e => exact hok
    | ok store' => exact storeOk_set _ _ _ _ _ _ hok hset
  | updateOp generate extract_cheatsheet curator_template now session_id
      question model_output =>
    simp only [applyOp]
    exact storeOk_update generate extract_cheatsheet curator_template now
      store session_id question model_output hok

/-- C3: starting from the empty store, after any sequence of
`_set_cheatsheet` and `update_cheatsheet` operations no stored content value
is empty or whitespace-only — any attempt to store a blank value is
normalized to the sentinel `"(empty)"` inside `set_cheatsheet` before it
reaches the table. -/
theorem C3_store_invariant (ops : List Op) :
    ∀ r ∈ ops.foldl applyOp ([] : Store), ContentOk r.2.1 := by
  have main : ∀ (l : List Op) (store : Store), StoreOk store →
      StoreOk (l.foldl applyOp store) := by
    intro l
    induction l with
    | nil => intro store h; exact h
    | cons op rest ih =>
      intro store h
      exact ih _ (storeOk_applyOp store op h)
  exact main ops [] (fun r hr => absurd hr (List.not_mem_nil r))

/-- Witness for C3 at a concrete input: writing blank content and then
running an extraction-miss update leaves a single row holding the
sentinel, which contains a non-whitespace character. -/
theorem C3_witness :
    ("s1", "(empty)", 3) ∈
      ([Op.setOp "s1" "  " none 3,
        Op.updateOp (fun _ => .ok "raw") (fun _ cur => cur) "tpl" 4
          "s1" "Q" "A"].foldl applyOp ([] : Store)) ∧
    ContentOk ("s1", "(empty)", 3).2.1 :=
  ⟨by decide,
   C3_store_invariant
     [Op.setOp "s1" "  " none 3,
      Op.updateOp (fun _ => .ok "raw") (fun _ cur => cur) "tpl" 4
        "s1" "Q" "A"]
     ("s1", "(empty)", 3) (by decide)⟩

/-! ## Claim C8: environment-sourced configuration (dc.py, lines 37-52 and
221-234)

`os.getenv` yields `none` when the variable is absent.  The Python builtins
`int` / `float` are modelled on decimal literals: optional surrounding
whitespace, optional sign, digits (for `float` also a fractional part and a
scientific exponent); on any other input they raise `ValueError`, modelled
as `none` here (digit-group underscores and `inf`/`nan` are not modelled).
`_parse_float` / `_parse_int` catch `TypeError` (a `None` argument) and
`ValueError` and return the fallback; `main` parses `MCP_PORT` with a bare
`int(...)` that has no such protection. -/

def charDigit (c : Char) : Nat := c.toNat - '0'.toNat

def natOfDigits (l : List Char) : Nat :=
  l.foldl (fun n c => 10 * n + charDigit c) 0

/-- A non-empty all-digit group, or a parse failure. -/
def digitsToNat? (l : List Char) : Option Nat :=
  if l ≠ [] ∧ l.all Char.isDigit then some (natOfDigits l) else none

/-- Modelled from Python's builtin `int(str)` on decimal literals. -/
def pyIntOfString? (s : String) : Option Int :=
  match (pyStrip s).data with
  | '+' :: rest => (digitsToNat? rest).map fun n => (n : Int)
  | '-' :: rest => (digitsToNat? rest).map fun n => -(n : Int)
  | l => (digitsToNat? l).map fun n => (n : Int)

/-- Modelled from Python's builtin `float(str)` on decimal literals,
returning the exact rational value. -/
def pyFloatOfString? (s : String) : Option Rat :=
  let l0 := (pyStrip s).data
  let sgn : Rat := match l0 with | '-' :: _ => -1 | _ => 1
  let l1 := match l0 with | '+' :: r => r | '-' :: r => r | r => r
  let ip := l1.takeWhile Char.isDigit
  let r1 := l1.dropWhile Char.isDigit
  let hasDot : Bool := match r1 with | '.' :: _ => true | _ => false
  let afterDot := match r1 with | '.' :: r => r | r => r
  let fp := if hasDot then afterDot.takeWhile Char.isDigit else []
  let r2 := if hasDot then afterDot.dropWhile Char.isDigit else r1
  let hasExp : Bool :=
    match r2 with | 'e' :: _ => true | 'E' :: _ => true | _ => false
  let afterE := match r2 with | 'e' :: r => r | 'E' :: r => r | r => r
  let esgn : Int := match afterE with | '-' :: _ => -1 | _ => 1
  let e1 := match afterE with | '+' :: r => r | '-' :: r => r | r => r
  let ed := e1.takeWhile Char.isDigit
  let r3 := e1.dropWhile Char.isDigit
  if (ip ≠ [] ∨ fp ≠ []) ∧ (if hasExp then ed ≠ [] ∧ r3 = [] else r2 = [])
  then
    let mant : Rat :=
      (natOfDigits ip : Rat) + (natOfDigits fp : Rat) / ((10 : Rat) ^ fp.length)
    let ex : Int := if hasExp then esgn * (natOfDigits ed : Int) else 0
    some (sgn * mant * (10 : Rat) ^ ex)
  else none

/-- `_parse_float` (dc.py, lines 37-41): `try: return float(value)` with
`TypeError` (a `None` value) and `ValueError` falling back. -/
def _parse_float (value : Option String) (fallback : Rat) : Rat :=
  match value with
  | none => fallback
  | some s =>
    match pyFloatOfString? s with
    | some x => x
    | none => fallback

/-- `_parse_int` (dc.py, lines 44-48). -/
def _parse_int (value : Option String) (fallback : Int) : Int :=
  match value with
  | none => fallback
  | some s =>
    match pyIntOfString? s with
    | some n => n
    | none => fallback

/-- `DEFAULT_CURATOR_TEMPERATURE = _parse_float(os.getenv(...), 0.0)`
(dc.py, line 51), as a function of the environment lookup result. -/
def DEFAULT_CURATOR_TEMPERATURE (env : Option String) : Rat :=
  _parse_float env 0

/-- `DEFAULT_CURATOR_MAX_TOKENS = _parse_int(os.getenv(...), 4096)`
(dc.py, line 52). -/
def DEFAULT_CURATOR_MAX_TOKENS (env : Option String) : Int :=
  _parse_int env 4096

/-- `host = os.getenv("MCP_HOST", "0.0.0.0")` (dc.py, line 228): the default
is used only when the variable is absent; the value is never parsed. -/
def mainHost (env : Option String) : String := env.getD "0.0.0.0"

/-- `port = int(os.getenv("MCP_PORT", "8000"))` (dc.py, line 229): a bare
`int(...)` call with no `try`/`except`, so an unparseable value raises. -/
def mainPort (env : Option String) : Except String Int :=
  match pyIntOfString? (env.getD "8000") with
  | some n => .ok n
  | none => .error "ValueError"

/-- C8 counterexample: with `MCP_PORT` set to an unparseable string, `main`
raises `ValueError` instead of silently falling back to the documented
default port 8000 — refuting the claim that every environment-sourced
configuration value falls back silently and never raises. -/
theorem C8_counterexample :
    mainPort (some "eight") = .error "ValueError" ∧
    mainPort (some "eight") ≠ .ok 8000 :=
  ⟨rfl, fun h => Except.noConfusion h⟩

/-- C8 (amended): the curation temperature (default 0.0) and max output
length (default 4096) fall back silently when the variable is absent or
fails to parse; the host falls back to `"0.0.0.0"` when absent (it is never
parsed); the port falls back to 8000 only when `MCP_PORT` is absent, and a
present unparseable `MCP_PORT` raises `ValueError`. -/
theorem C8_amended_config_fallbacks :
    (∀ fallback : Rat, _parse_float none fallback = fallback) ∧
    (∀ (s : String) (fallback : Rat), pyFloatOfString? s = none →
      _parse_float (some s) fallback = fallback) ∧
    (∀ fallback : Int, _parse_int none fallback = fallback) ∧
    (∀ (s : String) (fallback : Int), pyIntOfString? s = none →
      _parse_int (some s) fallback = fallback) ∧
    DEFAULT_CURATOR_TEMPERATURE none = 0 ∧
    DEFAULT_CURATOR_MAX_TOKENS none = 4096 ∧
    mainHost none = "0.0.0.0" ∧
    mainPort none = .ok 8000 ∧
    (∀ s : String, pyIntOfString? s = none →
      mainPort (some s) = .error "ValueError") := by
  refine ⟨fun _ => rfl, ?_, fun _ => rfl, ?_, rfl, rfl, rfl, rfl, ?_⟩
  · intro s fallback h
    simp only [_parse_float, h]
  · intro s fallback h
    simp only [_parse_int, h]
  · intro s h
    simp only [mainPort, Option.getD_some, h]

/-- Witness for the amended C8 at concrete inputs. -/
theorem C8_witness :
    _parse_float none 3 = 3 ∧
    _parse_float (some "abc") 0 = 0 ∧
    _parse_int none 7 = 7 ∧
    _parse_int (some "4o96") 4096 = 4096 ∧
    DEFAULT_CURATOR_TEMPERATURE none = 0 ∧
    DEFAULT_CURATOR_MAX_TOKENS none = 4096 ∧
    mainHost none = "0.0.0.0" ∧
    mainPort none = .ok 8000 ∧
    mainPort (some "oops") = .error "ValueError" :=
  ⟨C8_amended_config_fallbacks.1 3,
   C8_amended_config_fallbacks.2.1 "abc" 0 (by decide),
   C8_amended_config_fallbacks.2.2.1 7,
   C8_amended_config_fallbacks.2.2.2.1 "4o96" 4096 (by decide),
   C8_amended_config_fallbacks.2.2.2.2.1,
   C8_amended_config_fallbacks.2.2.2.2.2.1,
   C8_amended_config_fallbacks.2.2.2.2.2.2.1,
   C8_amended_config_fallbacks.2.2.2.2.2.2.2.1,
   C8_amended_config_fallbacks.2.2.2.2.2.2.2.2 "oops" (by decide)⟩

end DC
